import Mathlib

/-!
Verification development for the syz-dashboard-proxy repository
(`proxy.go`, `metrics.go`, CLI wiring).

The proxy is a fan-out HTTP dispatcher: one inbound form-encoded call
(client, key, method, payload) is matched against a fixed set of method
names, its payload is gunzipped and JSON-decoded, and the corresponding
dashapi operation is invoked on every configured downstream dashboard in
turn, aborting at the first adapter error.  Prometheus counters and gauges
are updated along the way.

Shallow embedding choices:
* A downstream adapter is identified by its forward-target string; the
  outcome of each adapter call is an oracle `AdapterEnv` supplied as a
  parameter (the real calls are network I/O in the external dashapi
  library).  `dashapi.Dashboard.LogError` has no error return value in the
  library (it swallows its internal query error), so a log-error adapter
  call can never fail; `callAdapter` encodes this.
* Gzip decompression and JSON decoding are opaque to proxy.go: the three
  fallible steps (`gzip.NewReader`, `Decode`, `Close`) all produce the same
  HTTP 400 response, so each method's decode pipeline is modelled as a
  single `Option`-valued oracle in `DecodeEnv`.  The decoded records are
  passed to the adapters unread, except for `manager_stats`, whose decoded
  fields feed the per-manager metrics and are modelled in full.
* Metric updates are recorded as an ordered event list; the response is
  `none` (no JSON written, success) or the single error JSON that
  proxy.go ever writes.
-/

/-- The dashapi operations proxy.go invokes on each downstream dashboard. -/
inductive DashOp where
  | uploadBuild
  | builderPoll
  | jobPoll
  | jobDone
  | reportBuildError
  | commitPoll
  | uploadCommits
  | reportCrash
  | needRepro
  | reportFailedRepro
  | logError
  | reportingPollBugs
  | reportingPollNotifs
  | reportingPollClosed
  | reportingUpdate
  | uploadManagerStats
  | bugList
  | loadBug
deriving DecidableEq, Repr

/-- Outcome oracle for downstream adapter calls: for a forward target and
an operation, either success or an error (carrying the error message). -/
def AdapterEnv : Type := String → DashOp → Except String Unit

/-- One adapter call.  Every dashapi method used by proxy.go returns an
error except `LogError`, whose signature in the dashapi library is
`func (dash *Dashboard) LogError(name, msg string, args ...interface{})`:
it returns nothing, so a log-error call never yields a failure. -/
def callAdapter (env : AdapterEnv) (d : String) (op : DashOp) :
    Except String Unit :=
  match op with
  | .logError => .ok ()
  | _ => env d op

/-- The fields of `dashapi.ManagerStatsReq` read by proxy.go.  Durations
(`UpTime`, `FuzzingTime`) are `time.Duration` (an integer); the remaining
numeric fields are `uint64`.  No arithmetic is performed on them before the
metric update, so they are carried exactly. -/
structure ManagerStatsReq where
  name : String
  upTime : Int
  corpus : Nat
  pcs : Nat
  cover : Nat
  crashes : Nat
  suppressedCrashes : Nat
  execs : Nat
  fuzzingTime : Int
deriving DecidableEq, Repr

/-- Decode oracles, one per payload-carrying method: gunzip plus JSON
decode of the form field `payload`.  `none` models any of the three
failure points (`gzip.NewReader`, `Decode`, `Close`).  All decoded records
except `ManagerStatsReq` are handed to the adapter without proxy.go
reading anything that affects control flow, so they are collapsed to
`Unit`. -/
structure DecodeEnv where
  uploadBuild : String → Option Unit
  builderPoll : String → Option Unit
  jobPoll : String → Option Unit
  jobDone : String → Option Unit
  reportBuildError : String → Option Unit
  uploadCommits : String → Option Unit
  reportCrash : String → Option Unit
  needRepro : String → Option Unit
  reportFailedRepro : String → Option Unit
  logError : String → Option Unit
  reportingPollBugs : String → Option Unit
  reportingPollNotifs : String → Option Unit
  reportingPollClosed : String → Option Unit
  reportingUpdate : String → Option Unit
  managerStats : String → Option ManagerStatsReq
  loadBug : String → Option Unit

/-- One metric mutation, in program order.  `counterInc` is a prometheus
counter `.Inc()`, `gaugeSet` a gauge `.Set(v)`, `counterAdd` a counter
`.Add(v)`.  The first argument is the metric `Name` from metrics.go, the
second the label values. -/
inductive MetricEvent where
  | counterInc (metric : String) (labels : List String)
  | gaugeSet (metric : String) (labels : List String) (value : Int)
  | counterAdd (metric : String) (labels : List String) (value : Int)
deriving DecidableEq, Repr

/-- The only error response proxy.go ever writes:
`c.JSON(http.StatusBadRequest, gin.H\x7b"error": errUnknownMethod.Error()\x7d)`. -/
structure HttpError where
  status : Nat
  error : String
deriving DecidableEq, Repr

/-- `errUnknownMethod = errors.New("unknown method")` from proxy.go. -/
def errUnknownMethod : String := "unknown method"

/-- The response written on every failure path. -/
def badRequest : HttpError := ⟨400, errUnknownMethod⟩

/-- The observable outcome of one dispatch: the adapter invocations in
order, the metric events in order, and the JSON error response if one was
written (`none` means the handler returned without writing a body). -/
structure DispatchResult where
  calls : List (String × DashOp)
  metrics : List MetricEvent
  response : Option HttpError
deriving DecidableEq, Repr

/-- The proxy state: `type proxy struct` holds the `dashes` registry built
by `New`.  Go map iteration order is arbitrary, so theorems quantify over
the list; only its element set is determined by `New`. -/
structure proxy where
  dashes : List String
deriving DecidableEq, Repr

/-- One Go map insert `dashes[f] = ...`: a fresh key is appended, an
existing key keeps its place (the value is irrelevant here). -/
def insertTarget (ks : List String) (f : String) : List String :=
  if f ∈ ks then ks else ks ++ [f]

/-- `New(forward)` from proxy.go: builds the registry with one adapter per
configured forward target. -/
def New (forward : List String) : proxy :=
  ⟨forward.foldl insertTarget []⟩

/-- The fan-out loop shared by every handler that checks errors:
`for _, dash := range p.dashes \x7b err := dash.Op(...); if err != nil ...`.
It records each invocation and stops at the first failing call, producing
the 400 response. -/
def fanOut (env : AdapterEnv) (op : DashOp) :
    List String → List (String × DashOp) × Option HttpError
  | [] => ([], none)
  | d :: rest =>
    match callAdapter env d op with
    | .error _ => ([(d, op)], some badRequest)
    | .ok _ =>
      let r := fanOut env op rest
      ((d, op) :: r.1, r.2)

/-- The decode-then-forward body shared verbatim by the payload-carrying
handlers of proxy.go (gunzip + JSON decode, then the fan-out loop). -/
def decodeForward (dashes : List String) (env : AdapterEnv)
    (dec : String → Option Unit) (payload : String) (op : DashOp) :
    DispatchResult :=
  match dec payload with
  | none => ⟨[], [], some badRequest⟩
  | some _ => ⟨(fanOut env op dashes).1, [], (fanOut env op dashes).2⟩

def uploadBuild (p : proxy) (env : AdapterEnv) (dec : DecodeEnv)
    (payload : String) : DispatchResult :=
  decodeForward p.dashes env dec.uploadBuild payload .uploadBuild

def builderPoll (p : proxy) (env : AdapterEnv) (dec : DecodeEnv)
    (payload : String) : DispatchResult :=
  decodeForward p.dashes env dec.builderPoll payload .builderPoll

def jobPoll (p : proxy) (env : AdapterEnv) (dec : DecodeEnv)
    (payload : String) : DispatchResult :=
  decodeForward p.dashes env dec.jobPoll payload .jobPoll

def jobDone (p : proxy) (env : AdapterEnv) (dec : DecodeEnv)
    (payload : String) : DispatchResult :=
  decodeForward p.dashes env dec.jobDone payload .jobDone

def reportBuildError (p : proxy) (env : AdapterEnv) (dec : DecodeEnv)
    (payload : String) : DispatchResult :=
  decodeForward p.dashes env dec.reportBuildError payload .reportBuildError

/-- `commitPoll` has no payload and no decode step. -/
def commitPoll (p : proxy) (env : AdapterEnv) : DispatchResult :=
  ⟨(fanOut env .commitPoll p.dashes).1, [], (fanOut env .commitPoll p.dashes).2⟩

def uploadCommits (p : proxy) (env : AdapterEnv) (dec : DecodeEnv)
    (payload : String) : DispatchResult :=
  decodeForward p.dashes env dec.uploadCommits payload .uploadCommits

def reportCrash (p : proxy) (env : AdapterEnv) (dec : DecodeEnv)
    (payload : String) : DispatchResult :=
  decodeForward p.dashes env dec.reportCrash payload .reportCrash

def needRepro (p : proxy) (env : AdapterEnv) (dec : DecodeEnv)
    (payload : String) : DispatchResult :=
  decodeForward p.dashes env dec.needRepro payload .needRepro

def reportFailedRepro (p : proxy) (env : AdapterEnv) (dec : DecodeEnv)
    (payload : String) : DispatchResult :=
  decodeForward p.dashes env dec.reportFailedRepro payload .reportFailedRepro

/-- `logError` decodes its payload like the others, but its fan-out loop
body is `dash.LogError(req.Name, req.Text)` with no error check (the call
has no error result), so every adapter is invoked and no error response is
possible after a successful decode. -/
def logError (p : proxy) (_env : AdapterEnv) (dec : DecodeEnv)
    (payload : String) : DispatchResult :=
  match dec.logError payload with
  | none => ⟨[], [], some badRequest⟩
  | some _ => ⟨p.dashes.map (fun d => (d, .logError)), [], none⟩

def reportingPollBugs (p : proxy) (env : AdapterEnv) (dec : DecodeEnv)
    (payload : String) : DispatchResult :=
  decodeForward p.dashes env dec.reportingPollBugs payload .reportingPollBugs

def reportingPollNotifs (p : proxy) (env : AdapterEnv) (dec : DecodeEnv)
    (payload : String) : DispatchResult :=
  decodeForward p.dashes env dec.reportingPollNotifs payload .reportingPollNotifs

def reportingPollClosed (p : proxy) (env : AdapterEnv) (dec : DecodeEnv)
    (payload : String) : DispatchResult :=
  decodeForward p.dashes env dec.reportingPollClosed payload .reportingPollClosed

def reportingUpdate (p : proxy) (env : AdapterEnv) (dec : DecodeEnv)
    (payload : String) : DispatchResult :=
  decodeForward p.dashes env dec.reportingUpdate payload .reportingUpdate

/-- The eight per-manager metric updates performed by `managerStats`, in
source order (four gauge sets, then four counter adds), all labelled with
the payload's `Name`. -/
def managerStatsEvents (r : ManagerStatsReq) : List MetricEvent :=
  [.gaugeSet "manager_uptime_total" [r.name] r.upTime,
   .gaugeSet "manager_corpus_total" [r.name] (r.corpus : Int),
   .gaugeSet "manager_pcs_total" [r.name] (r.pcs : Int),
   .gaugeSet "manager_coverage_total" [r.name] (r.cover : Int),
   .counterAdd "manager_crashes_total" [r.name] (r.crashes : Int),
   .counterAdd "manager_execs_total" [r.name] (r.execs : Int),
   .counterAdd "manager_supp_crashes_total" [r.name] (r.suppressedCrashes : Int),
   .counterAdd "manager_fuzzing_dur_total" [r.name] r.fuzzingTime]

/-- `managerStats`: decode, update the eight per-manager metrics
unconditionally, then fan out `UploadManagerStats` with the usual error
check. -/
def managerStats (p : proxy) (env : AdapterEnv) (dec : DecodeEnv)
    (payload : String) : DispatchResult :=
  match dec.managerStats payload with
  | none => ⟨[], [], some badRequest⟩
  | some r =>
    ⟨(fanOut env .uploadManagerStats p.dashes).1,
     managerStatsEvents r,
     (fanOut env .uploadManagerStats p.dashes).2⟩

/-- `bugList` has no payload and no decode step. -/
def bugList (p : proxy) (env : AdapterEnv) : DispatchResult :=
  ⟨(fanOut env .bugList p.dashes).1, [], (fanOut env .bugList p.dashes).2⟩

def loadBug (p : proxy) (env : AdapterEnv) (dec : DecodeEnv)
    (payload : String) : DispatchResult :=
  decodeForward p.dashes env dec.loadBug payload .loadBug

/-- The inbound call: form fields `client`, `key`, `method`, `payload`. -/
structure CallEnvelope where
  client : String
  key : String
  method : String
  payload : String
deriving DecidableEq, Repr

/-- The `rpcCounters.WithLabelValues(client, method).Inc()` executed after
the switch in `Proxy` (and inline in the `manager_stats` branch). -/
def withCount (client method : String) (r : DispatchResult) :
    DispatchResult :=
  { r with
    metrics := r.metrics ++ [.counterInc "requests_total" [client, method]] }

/-- `func (p *proxy) Proxy(c *gin.Context)`: the method-name switch.  A Go
switch over string literals is a sequence of equality tests in source
order.  Every recognized branch calls its handler and then (by the
fall-through after the switch, or inline for `manager_stats`) increments
`requests_total\x7bclient, method\x7d`; the default branch increments
`requests_total\x7bclient, "invalid"\x7d` and writes the error response. -/
def Proxy (p : proxy) (env : AdapterEnv) (dec : DecodeEnv)
    (q : CallEnvelope) : DispatchResult :=
  if q.method = "upload_build" then
    withCount q.client q.method (uploadBuild p env dec q.payload)
  else if q.method = "builder_poll" then
    withCount q.client q.method (builderPoll p env dec q.payload)
  else if q.method = "job_poll" then
    withCount q.client q.method (jobPoll p env dec q.payload)
  else if q.method = "job_done" then
    withCount q.client q.method (jobDone p env dec q.payload)
  else if q.method = "report_build_error" then
    withCount q.client q.method (reportBuildError p env dec q.payload)
  else if q.method = "commit_poll" then
    withCount q.client q.method (commitPoll p env)
  else if q.method = "upload_commits" then
    withCount q.client q.method (uploadCommits p env dec q.payload)
  else if q.method = "report_crash" then
    withCount q.client q.method (reportCrash p env dec q.payload)
  else if q.method = "need_repro" then
    withCount q.client q.method (needRepro p env dec q.payload)
  else if q.method = "report_failed_repro" then
    withCount q.client q.method (reportFailedRepro p env dec q.payload)
  else if q.method = "log_error" then
    withCount q.client q.method (logError p env dec q.payload)
  else if q.method = "reporting_poll_bugs" then
    withCount q.client q.method (reportingPollBugs p env dec q.payload)
  else if q.method = "reporting_poll_notifs" then
    withCount q.client q.method (reportingPollNotifs p env dec q.payload)
  else if q.method = "reporting_poll_closed" then
    withCount q.client q.method (reportingPollClosed p env dec q.payload)
  else if q.method = "reporting_update" then
    withCount q.client q.method (reportingUpdate p env dec q.payload)
  else if q.method = "manager_stats" then
    withCount q.client q.method (managerStats p env dec q.payload)
  else if q.method = "bug_list" then
    withCount q.client q.method (bugList p env)
  else if q.method = "load_bug" then
    withCount q.client q.method (loadBug p env dec q.payload)
  else
    ⟨[], [.counterInc "requests_total" [q.client, "invalid"]],
     some badRequest⟩

/-- The dispatch table of the switch in `Proxy`: each recognized method
name paired with the dashapi operation its handler fans out. -/
def methodOps : List (String × DashOp) :=
  [("upload_build", .uploadBuild),
   ("builder_poll", .builderPoll),
   ("job_poll", .jobPoll),
   ("job_done", .jobDone),
   ("report_build_error", .reportBuildError),
   ("commit_poll", .commitPoll),
   ("upload_commits", .uploadCommits),
   ("report_crash", .reportCrash),
   ("need_repro", .needRepro),
   ("report_failed_repro", .reportFailedRepro),
   ("log_error", .logError),
   ("reporting_poll_bugs", .reportingPollBugs),
   ("reporting_poll_notifs", .reportingPollNotifs),
   ("reporting_poll_closed", .reportingPollClosed),
   ("reporting_update", .reportingUpdate),
   ("manager_stats", .uploadManagerStats),
   ("bug_list", .bugList),
   ("load_bug", .loadBug)]

/-- The recognized method names, in switch order. -/
def knownMethods : List String := methodOps.map Prod.fst

/-- The recognized methods that carry a payload (all but `commit_poll` and
`bug_list`). -/
def payloadMethods : List String :=
  ["upload_build", "builder_poll", "job_poll", "job_done",
   "report_build_error", "upload_commits", "report_crash", "need_repro",
   "report_failed_repro", "log_error", "reporting_poll_bugs",
   "reporting_poll_notifs", "reporting_poll_closed", "reporting_update",
   "manager_stats", "load_bug"]

/-- Whether the decode pipeline of the given method succeeds on the given
payload (vacuously true for the payload-less methods and for unknown
methods, which never decode). -/
def decodeOk (dec : DecodeEnv) (method payload : String) : Bool :=
  if method = "upload_build" then (dec.uploadBuild payload).isSome
  else if method = "builder_poll" then (dec.builderPoll payload).isSome
  else if method = "job_poll" then (dec.jobPoll payload).isSome
  else if method = "job_done" then (dec.jobDone payload).isSome
  else if method = "report_build_error" then
    (dec.reportBuildError payload).isSome
  else if method = "upload_commits" then (dec.uploadCommits payload).isSome
  else if method = "report_crash" then (dec.reportCrash payload).isSome
  else if method = "need_repro" then (dec.needRepro payload).isSome
  else if method = "report_failed_repro" then
    (dec.reportFailedRepro payload).isSome
  else if method = "log_error" then (dec.logError payload).isSome
  else if method = "reporting_poll_bugs" then
    (dec.reportingPollBugs payload).isSome
  else if method = "reporting_poll_notifs" then
    (dec.reportingPollNotifs payload).isSome
  else if method = "reporting_poll_closed" then
    (dec.reportingPollClosed payload).isSome
  else if method = "reporting_update" then
    (dec.reportingUpdate payload).isSome
  else if method = "manager_stats" then (dec.managerStats payload).isSome
  else if method = "load_bug" then (dec.loadBug payload).isSome
  else true

/-- The adapter call for target number `i` fails with message `e` while
the calls for every earlier target succeed. -/
def firstFailAt (env : AdapterEnv) (dashes : List String) (op : DashOp)
    (i : Nat) (e : String) : Prop :=
  ∃ hi : i < dashes.length,
    callAdapter env (dashes.get ⟨i, hi⟩) op = .error e ∧
    ∀ j, ∀ hj : j < i,
      callAdapter env (dashes.get ⟨j, Nat.lt_trans hj hi⟩) op = .ok ()

/-- Recognizes increments of the `requests_total` counter vector. -/
def isRpc : MetricEvent → Bool
  | .counterInc metric _ => metric = "requests_total"
  | _ => false

/-- How many times the `requests_total` cell labelled (client, method) is
incremented in a dispatch result. -/
def countRpc (r : DispatchResult) (client method : String) : Nat :=
  (r.metrics.filter
    (fun ev =>
      decide (ev = MetricEvent.counterInc "requests_total" [client, method]))).length

/-- One full request step: the registry is read, never written (proxy.go
assigns `p.dashes` only in `New`). -/
def step (p : proxy) (env : AdapterEnv) (dec : DecodeEnv)
    (q : CallEnvelope) : proxy × DispatchResult :=
  (p, Proxy p env dec q)

/-- A whole sequence of requests, threading the proxy state. -/
def run (p : proxy) (env : AdapterEnv) (dec : DecodeEnv) :
    List CallEnvelope → proxy
  | [] => p
  | q :: qs => run (step p env dec q).1 env dec qs

section FanOutLemmas

theorem fanOut_allOk (env : AdapterEnv) (op : DashOp) :
    ∀ dashes : List String,
      (∀ d ∈ dashes, callAdapter env d op = .ok ()) →
      fanOut env op dashes = (dashes.map (fun d => (d, op)), none)
  | [], _ => rfl
  | d :: rest, h => by
    have hd : callAdapter env d op = .ok () := h d (by simp)
    have hrest := fanOut_allOk env op rest (fun x hx => h x (by simp [hx]))
    simp [fanOut, hd, hrest]

theorem fanOut_firstFail (env : AdapterEnv) (op : DashOp) :
    ∀ (dashes : List String) (i : Nat) (e : String),
      firstFailAt env dashes op i e →
      fanOut env op dashes =
        ((dashes.take (i + 1)).map (fun d => (d, op)), some badRequest)
  | [], i, e, h => by
    obtain ⟨hi, -, -⟩ := h
    exact absurd hi (by simp)
  | d :: rest, 0, e, h => by
    obtain ⟨hi, hfail, -⟩ := h
    simp only [List.get] at hfail
    simp [fanOut, hfail]
  | d :: rest, i + 1, e, h => by
    obtain ⟨hi, hfail, hpre⟩ := h
    have hd : callAdapter env d op = .ok () := by
      have := hpre 0 (Nat.succ_pos i)
      simpa using this
    have hrest :
        fanOut env op rest =
          ((rest.take (i + 1)).map (fun x => (x, op)), some badRequest) := by
      refine fanOut_firstFail env op rest i e ⟨Nat.lt_of_succ_lt_succ hi, ?_, ?_⟩
      · simpa using hfail
      · intro j hj
        have := hpre (j + 1) (Nat.succ_lt_succ hj)
        simpa using this
    simp [fanOut, hd, hrest]

/-- Every fan-out outcome is either success or the one generic error. -/
theorem fanOut_response (env : AdapterEnv) (op : DashOp) :
    ∀ dashes : List String,
      (fanOut env op dashes).2 = none ∨
      (fanOut env op dashes).2 = some badRequest
  | [] => Or.inl rfl
  | d :: rest => by
    cases hc : callAdapter env d op with
    | error e => simp [fanOut, hc]
    | ok u =>
      rcases fanOut_response env op rest with h | h
      · exact Or.inl (by simp [fanOut, hc, h])
      · exact Or.inr (by simp [fanOut, hc, h])

end FanOutLemmas

/-- The metric events a handler emits before the request counter: empty
for every method except `manager_stats`, whose handler records the eight
per-manager updates once its payload decodes. -/
def mgrEvents (dec : DecodeEnv) (q : CallEnvelope) : List MetricEvent :=
  if q.method = "manager_stats" then
    match dec.managerStats q.payload with
    | some r => managerStatsEvents r
    | none => []
  else []

/-- Dispatch of a recognized method whose payload decodes, when the
adapter call for target `i` fails and all earlier ones succeed: targets
`0..i` are each invoked once in order, later targets are skipped, the
handler metrics and the request counter are still recorded, and the one
generic error response is written. -/
theorem Proxy_firstFail (p : proxy) (env : AdapterEnv) (dec : DecodeEnv)
    (q : CallEnvelope) (op : DashOp) (i : Nat) (e : String)
    (hm : (q.method, op) ∈ methodOps)
    (hdec : decodeOk dec q.method q.payload = true)
    (hff : firstFailAt env p.dashes op i e) :
    Proxy p env dec q =
      ⟨(p.dashes.take (i + 1)).map (fun d => (d, op)),
       mgrEvents dec q ++
         [.counterInc "requests_total" [q.client, q.method]],
       some badRequest⟩ := by
  obtain ⟨cl, k, m, pl⟩ := q
  simp only [methodOps, List.mem_cons, List.not_mem_nil, or_false,
    Prod.mk.injEq] at hm
  rcases hm with ⟨h1, h2⟩ | ⟨h1, h2⟩ | ⟨h1, h2⟩ | ⟨h1, h2⟩ | ⟨h1, h2⟩ |
    ⟨h1, h2⟩ | ⟨h1, h2⟩ | ⟨h1, h2⟩ | ⟨h1, h2⟩ | ⟨h1, h2⟩ | ⟨h1, h2⟩ |
    ⟨h1, h2⟩ | ⟨h1, h2⟩ | ⟨h1, h2⟩ | ⟨h1, h2⟩ | ⟨h1, h2⟩ | ⟨h1, h2⟩ |
    ⟨h1, h2⟩
  · subst h1; subst h2
    simp only [decodeOk, if_pos rfl] at hdec
    obtain ⟨u, hu⟩ := Option.isSome_iff_exists.mp hdec
    have hf := fanOut_firstFail env .uploadBuild p.dashes i e hff
    simp [Proxy, uploadBuild, decodeForward, hu, withCount, mgrEvents, hf]
  · subst h1; subst h2
    simp only [decodeOk] at hdec
    norm_num at hdec
    obtain ⟨u, hu⟩ := Option.isSome_iff_exists.mp hdec
    have hf := fanOut_firstFail env .builderPoll p.dashes i e hff
    simp [Proxy, builderPoll, decodeForward, hu, withCount, mgrEvents, hf]
  · subst h1; subst h2
    simp only [decodeOk] at hdec
    norm_num at hdec
    obtain ⟨u, hu⟩ := Option.isSome_iff_exists.mp hdec
    have hf := fanOut_firstFail env .jobPoll p.dashes i e hff
    simp [Proxy, jobPoll, decodeForward, hu, withCount, mgrEvents, hf]
  · subst h1; subst h2
    simp only [decodeOk] at hdec
    norm_num at hdec
    obtain ⟨u, hu⟩ := Option.isSome_iff_exists.mp hdec
    have hf := fanOut_firstFail env .jobDone p.dashes i e hff
    simp [Proxy, jobDone, decodeForward, hu, withCount, mgrEvents, hf]
  · subst h1; subst h2
    simp only [decodeOk] at hdec
    norm_num at hdec
    obtain ⟨u, hu⟩ := Option.isSome_iff_exists.mp hdec
    have hf := fanOut_firstFail env .reportBuildError p.dashes i e hff
    simp [Proxy, reportBuildError, decodeForward, hu, withCount, mgrEvents,
      hf]
  · subst h1; subst h2
    have hf := fanOut_firstFail env .commitPoll p.dashes i e hff
    simp [Proxy, commitPoll, withCount, mgrEvents, hf]
  · subst h1; subst h2
    simp only [decodeOk] at hdec
    norm_num at hdec
    obtain ⟨u, hu⟩ := Option.isSome_iff_exists.mp hdec
    have hf := fanOut_firstFail env .uploadCommits p.dashes i e hff
    simp [Proxy, uploadCommits, decodeForward, hu, withCount, mgrEvents, hf]
  · subst h1; subst h2
    simp only [decodeOk] at hdec
    norm_num at hdec
    obtain ⟨u, hu⟩ := Option.isSome_iff_exists.mp hdec
    have hf := fanOut_firstFail env .reportCrash p.dashes i e hff
    simp [Proxy, reportCrash, decodeForward, hu, withCount, mgrEvents, hf]
  · subst h1; subst h2
    simp only [decodeOk] at hdec
    norm_num at hdec
    obtain ⟨u, hu⟩ := Option.isSome_iff_exists.mp hdec
    have hf := fanOut_firstFail env .needRepro p.dashes i e hff
    simp [Proxy, needRepro, decodeForward, hu, withCount, mgrEvents, hf]
  · subst h1; subst h2
    simp only [decodeOk] at hdec
    norm_num at hdec
    obtain ⟨u, hu⟩ := Option.isSome_iff_exists.mp hdec
    have hf := fanOut_firstFail env .reportFailedRepro p.dashes i e hff
    simp [Proxy, reportFailedRepro, decodeForward, hu, withCount, mgrEvents,
      hf]
  · subst h1; subst h2
    obtain ⟨hi, hfail, -⟩ := hff
    simp [callAdapter] at hfail
  · subst h1; subst h2
    simp only [decodeOk] at hdec
    norm_num at hdec
    obtain ⟨u, hu⟩ := Option.isSome_iff_exists.mp hdec
    have hf := fanOut_firstFail env .reportingPollBugs p.dashes i e hff
    simp [Proxy, reportingPollBugs, decodeForward, hu, withCount, mgrEvents,
      hf]
  · subst h1; subst h2
    simp only [decodeOk] at hdec
    norm_num at hdec
    obtain ⟨u, hu⟩ := Option.isSome_iff_exists.mp hdec
    have hf := fanOut_firstFail env .reportingPollNotifs p.dashes i e hff
    simp [Proxy, reportingPollNotifs, decodeForward, hu, withCount,
      mgrEvents, hf]
  · subst h1; subst h2
    simp only [decodeOk] at hdec
    norm_num at hdec
    obtain ⟨u, hu⟩ := Option.isSome_iff_exists.mp hdec
    have hf := fanOut_firstFail env .reportingPollClosed p.dashes i e hff
    simp [Proxy, reportingPollClosed, decodeForward, hu, withCount,
      mgrEvents, hf]
  · subst h1; subst h2
    simp only [decodeOk] at hdec
    norm_num at hdec
    obtain ⟨u, hu⟩ := Option.isSome_iff_exists.mp hdec
    have hf := fanOut_firstFail env .reportingUpdate p.dashes i e hff
    simp [Proxy, reportingUpdate, decodeForward, hu, withCount, mgrEvents,
      hf]
  · subst h1; subst h2
    simp only [decodeOk] at hdec
    norm_num at hdec
    obtain ⟨r, hr⟩ := Option.isSome_iff_exists.mp hdec
    have hf := fanOut_firstFail env .uploadManagerStats p.dashes i e hff
    simp [Proxy, managerStats, hr, withCount, mgrEvents, hf]
  · subst h1; subst h2
    have hf := fanOut_firstFail env .bugList p.dashes i e hff
    simp [Proxy, bugList, withCount, mgrEvents, hf]
  · subst h1; subst h2
    simp only [decodeOk] at hdec
    norm_num at hdec
    obtain ⟨u, hu⟩ := Option.isSome_iff_exists.mp hdec
    have hf := fanOut_firstFail env .loadBug p.dashes i e hff
    simp [Proxy, loadBug, decodeForward, hu, withCount, mgrEvents, hf]


theorem filter_eq_nil_of_not_mem {α} [DecidableEq α] (x : α) :
    ∀ l : List α, x ∉ l → l.filter (fun a => decide (a = x)) = []
  | [], _ => rfl
  | a :: t, h => by
    have hax : ¬ a = x := fun he => h (he ▸ List.mem_cons_self a t)
    have ht := filter_eq_nil_of_not_mem x t
      (fun hm => h (List.mem_cons_of_mem a hm))
    simp [List.filter, hax, ht]

theorem filter_eq_singleton_of_nodup {α} [DecidableEq α] (x : α) :
    ∀ l : List α, l.Nodup → x ∈ l → l.filter (fun a => decide (a = x)) = [x]
  | [], _, hmem => absurd hmem (List.not_mem_nil x)
  | a :: t, hnd, hmem => by
    by_cases hax : a = x
    · subst hax
      have hnotin : a ∉ t := (List.nodup_cons.mp hnd).1
      simp [List.filter, filter_eq_nil_of_not_mem a t hnotin]
    · have ht : x ∈ t := by
        rcases List.mem_cons.mp hmem with he | ht
        · exact absurd he.symm hax
        · exact ht
      have hrec := filter_eq_singleton_of_nodup x t
        (List.nodup_cons.mp hnd).2 ht
      simp [List.filter, hax, hrec]

/-- C1: for every recognized method whose payload decodes, if the adapter
call for target `i` (in registry iteration order) fails while every
earlier target's call succeeded, dispatch invokes the operation on each of
the targets `0..i-1` exactly once, also invokes it on target `i`, never
invokes it on any target after `i`, returns the generic client error, and
performs nothing else for the already-invoked targets (the full call list
is exactly targets `0..i`, once each, in order). -/
theorem c1_first_failure_stops_fanout (p : proxy) (env : AdapterEnv)
    (dec : DecodeEnv) (q : CallEnvelope) (op : DashOp) (i : Nat) (e : String)
    (hnd : p.dashes.Nodup)
    (hm : (q.method, op) ∈ methodOps)
    (hdec : decodeOk dec q.method q.payload = true)
    (hi : i < p.dashes.length)
    (hfail : callAdapter env (p.dashes.get ⟨i, hi⟩) op = .error e)
    (hpre : ∀ j, ∀ hj : j < i,
      callAdapter env (p.dashes.get ⟨j, Nat.lt_trans hj hi⟩) op = .ok ()) :
    (Proxy p env dec q).calls =
      (p.dashes.take (i + 1)).map (fun d => (d, op)) ∧
    (∀ j, ∀ hj : j < i,
      ((Proxy p env dec q).calls.filter
        (fun c =>
          decide (c = (p.dashes.get ⟨j, Nat.lt_trans hj hi⟩, op)))).length
        = 1) ∧
    (∀ j, ∀ hj : j < p.dashes.length, i < j →
      (p.dashes.get ⟨j, hj⟩, op) ∉ (Proxy p env dec q).calls) ∧
    (Proxy p env dec q).response = some ⟨400, "unknown method"⟩ := by
  have hres := Proxy_firstFail p env dec q op i e hm hdec ⟨hi, hfail, hpre⟩
  have hinj : Function.Injective (fun d : String => (d, op)) := by
    intro a b hab
    simpa using hab
  refine ⟨by rw [hres], ?_, ?_, by rw [hres]; rfl⟩
  · intro j hj
    have hjl : j < p.dashes.length := Nat.lt_trans hj hi
    rw [hres]
    dsimp only
    rw [List.filter_map]
    have hcongr :
        ((fun c : String × DashOp =>
            decide (c = (p.dashes.get ⟨j, hjl⟩, op))) ∘ fun d => (d, op)) =
          fun a => decide (a = p.dashes.get ⟨j, hjl⟩) := by
      funext a
      simp [Function.comp, Prod.ext_iff]
    rw [hcongr,
      filter_eq_singleton_of_nodup (p.dashes.get ⟨j, hjl⟩)
        (List.take (i + 1) p.dashes)
        (hnd.sublist (List.take_sublist _ _)) ?_]
    · rfl
    · rw [List.mem_take_iff_getElem]
      refine ⟨j, by omega, ?_⟩
      simp
  · intro j hjl hij hmem
    rw [hres] at hmem
    dsimp only at hmem
    obtain ⟨a, ha, hae⟩ := List.mem_map.mp hmem
    have ha' : a = p.dashes.get ⟨j, hjl⟩ := by
      simpa using hae
    subst ha'
    rw [List.mem_take_iff_getElem] at ha
    obtain ⟨k, hk, hka⟩ := ha
    have hkl : k < p.dashes.length := by omega
    have : k = j := by
      have hg : p.dashes.get ⟨k, hkl⟩ = p.dashes.get ⟨j, hjl⟩ := by
        simpa using hka
      exact Fin.mk.injEq _ _ _ _ ▸ (hnd.get_inj_iff.mp hg)
    omega

/-- Adapter environment for the C1 witness: target t1 fails upload_build,
everything else succeeds. -/
def envC1 : AdapterEnv := fun d _ => if d = "t1" then .error "boom" else .ok ()

/-- Decode environment whose every pipeline succeeds (manager payloads
decode to a fixed record). -/
def decAllOk : DecodeEnv :=
  ⟨fun _ => some (), fun _ => some (), fun _ => some (), fun _ => some (),
   fun _ => some (), fun _ => some (), fun _ => some (), fun _ => some (),
   fun _ => some (), fun _ => some (), fun _ => some (), fun _ => some (),
   fun _ => some (), fun _ => some (),
   fun _ => some ⟨"fuzzer1", 100, 5, 0, 0, 2, 0, 0, 0⟩, fun _ => some ()⟩

theorem c1_witness :
    (Proxy (New ["t1", "t2"]) envC1 decAllOk
        ⟨"c", "k", "upload_build", "pl"⟩).calls =
      [("t1", DashOp.uploadBuild)] ∧
    (Proxy (New ["t1", "t2"]) envC1 decAllOk
        ⟨"c", "k", "upload_build", "pl"⟩).response =
      some ⟨400, "unknown method"⟩ := by
  have h := c1_first_failure_stops_fanout (New ["t1", "t2"]) envC1 decAllOk
    ⟨"c", "k", "upload_build", "pl"⟩ .uploadBuild 0 "boom"
    (by decide) (by decide) (by decide) (by decide) rfl
    (fun j hj => absurd hj (Nat.not_lt_zero j))
  exact ⟨h.1, h.2.2.2⟩

/-- C6: the Dispatcher handles a downstream failure of any operation of
the capability surface uniformly: two environments that fail at the same
first target (with arbitrary, possibly different error values) produce the
very same dispatch outcome, and that outcome is the generic error with the
fan-out aborted at the failing target.  The log-error operation is
quantified like the rest; its adapter call has no error return in dashapi,
so it never produces such a failure. -/
theorem c6_uniform_failure_treatment (p : proxy) (dec : DecodeEnv)
    (q : CallEnvelope) (op : DashOp) (i : Nat) (e₁ e₂ : String)
    (env₁ env₂ : AdapterEnv)
    (hm : (q.method, op) ∈ methodOps)
    (hdec : decodeOk dec q.method q.payload = true)
    (hff₁ : firstFailAt env₁ p.dashes op i e₁)
    (hff₂ : firstFailAt env₂ p.dashes op i e₂) :
    Proxy p env₁ dec q = Proxy p env₂ dec q ∧
    (Proxy p env₁ dec q).response = some ⟨400, "unknown method"⟩ ∧
    (Proxy p env₁ dec q).calls =
      (p.dashes.take (i + 1)).map (fun d => (d, op)) := by
  have h₁ := Proxy_firstFail p env₁ dec q op i e₁ hm hdec hff₁
  have h₂ := Proxy_firstFail p env₂ dec q op i e₂ hm hdec hff₂
  refine ⟨h₁.trans h₂.symm, by rw [h₁]; rfl, by rw [h₁]⟩

/-- A second adapter environment for the C6 witness: fails the same first
target as `envC1` but with a different error value. -/
def envC6 : AdapterEnv := fun d _ => if d = "t1" then .error "zap" else .ok ()

theorem c6_witness :
    Proxy (New ["t1", "t2"]) envC1 decAllOk ⟨"c", "k", "report_crash", "pl"⟩ =
      Proxy (New ["t1", "t2"]) envC6 decAllOk
        ⟨"c", "k", "report_crash", "pl"⟩ ∧
    (Proxy (New ["t1", "t2"]) envC1 decAllOk
        ⟨"c", "k", "report_crash", "pl"⟩).response =
      some ⟨400, "unknown method"⟩ ∧
    (Proxy (New ["t1", "t2"]) envC1 decAllOk
        ⟨"c", "k", "report_crash", "pl"⟩).calls =
      [("t1", DashOp.reportCrash)] := by
  have h := c6_uniform_failure_treatment (New ["t1", "t2"]) decAllOk
    ⟨"c", "k", "report_crash", "pl"⟩ .reportCrash 0 "boom" "zap" envC1 envC6
    (by decide) (by decide)
    ⟨by decide, rfl, fun j hj => absurd hj (Nat.not_lt_zero j)⟩
    ⟨by decide, rfl, fun j hj => absurd hj (Nat.not_lt_zero j)⟩
  exact ⟨h.1, h.2.1, h.2.2⟩

/-- An adapter environment in which every call succeeds. -/
def envAllOk : AdapterEnv := fun _ _ => .ok ()

theorem decodeForward_response (dashes : List String) (env : AdapterEnv)
    (df : String → Option Unit) (pl : String) (op : DashOp) :
    (decodeForward dashes env df pl op).response = none ∨
    (decodeForward dashes env df pl op).response = some badRequest := by
  cases h : df pl with
  | none => right; simp [decodeForward, h]
  | some u => simpa [decodeForward, h] using fanOut_response env op dashes

theorem managerStats_response (p : proxy) (env : AdapterEnv)
    (dec : DecodeEnv) (pl : String) :
    (managerStats p env dec pl).response = none ∨
    (managerStats p env dec pl).response = some badRequest := by
  cases h : dec.managerStats pl with
  | none => right; simp [managerStats, h]
  | some r =>
    simpa [managerStats, h] using fanOut_response env .uploadManagerStats p.dashes

theorem logError_response (p : proxy) (env : AdapterEnv) (dec : DecodeEnv)
    (pl : String) :
    (logError p env dec pl).response = none ∨
    (logError p env dec pl).response = some badRequest := by
  cases h : dec.logError pl with
  | none => right; simp [logError, h]
  | some u => left; simp [logError, h]

/-- Every response `Proxy` can ever write is the single generic error. -/
theorem Proxy_response (p : proxy) (env : AdapterEnv) (dec : DecodeEnv)
    (q : CallEnvelope) :
    (Proxy p env dec q).response = none ∨
    (Proxy p env dec q).response = some badRequest := by
  obtain ⟨cl, k, m, pl⟩ := q
  by_cases hm1 : m = "upload_build"
  · subst hm1
    unfold Proxy
    rw [if_pos rfl]
    simpa [withCount, uploadBuild] using
      decodeForward_response p.dashes env dec.uploadBuild pl .uploadBuild
  by_cases hm2 : m = "builder_poll"
  · subst hm2
    unfold Proxy
    rw [if_neg hm1, if_pos rfl]
    simpa [withCount, builderPoll] using
      decodeForward_response p.dashes env dec.builderPoll pl .builderPoll
  by_cases hm3 : m = "job_poll"
  · subst hm3
    unfold Proxy
    rw [if_neg hm1, if_neg hm2, if_pos rfl]
    simpa [withCount, jobPoll] using
      decodeForward_response p.dashes env dec.jobPoll pl .jobPoll
  by_cases hm4 : m = "job_done"
  · subst hm4
    unfold Proxy
    rw [if_neg hm1, if_neg hm2, if_neg hm3, if_pos rfl]
    simpa [withCount, jobDone] using
      decodeForward_response p.dashes env dec.jobDone pl .jobDone
  by_cases hm5 : m = "report_build_error"
  · subst hm5
    unfold Proxy
    rw [if_neg hm1, if_neg hm2, if_neg hm3, if_neg hm4, if_pos rfl]
    simpa [withCount, reportBuildError] using
      decodeForward_response p.dashes env dec.reportBuildError pl
        .reportBuildError
  by_cases hm6 : m = "commit_poll"
  · subst hm6
    unfold Proxy
    rw [if_neg hm1, if_neg hm2, if_neg hm3, if_neg hm4, if_neg hm5,
      if_pos rfl]
    simpa [withCount, commitPoll] using
      fanOut_response env .commitPoll p.dashes
  by_cases hm7 : m = "upload_commits"
  · subst hm7
    unfold Proxy
    rw [if_neg hm1, if_neg hm2, if_neg hm3, if_neg hm4, if_neg hm5,
      if_neg hm6, if_pos rfl]
    simpa [withCount, uploadCommits] using
      decodeForward_response p.dashes env dec.uploadCommits pl .uploadCommits
  by_cases hm8 : m = "report_crash"
  · subst hm8
    unfold Proxy
    rw [if_neg hm1, if_neg hm2, if_neg hm3, if_neg hm4, if_neg hm5,
      if_neg hm6, if_neg hm7, if_pos rfl]
    simpa [withCount, reportCrash] using
      decodeForward_response p.dashes env dec.reportCrash pl .reportCrash
  by_cases hm9 : m = "need_repro"
  · subst hm9
    unfold Proxy
    rw [if_neg hm1, if_neg hm2, if_neg hm3, if_neg hm4, if_neg hm5,
      if_neg hm6, if_neg hm7, if_neg hm8, if_pos rfl]
    simpa [withCount, needRepro] using
      decodeForward_response p.dashes env dec.needRepro pl .needRepro
  by_cases hm10 : m = "report_failed_repro"
  · subst hm10
    unfold Proxy
    rw [if_neg hm1, if_neg hm2, if_neg hm3, if_neg hm4, if_neg hm5,
      if_neg hm6, if_neg hm7, if_neg hm8, if_neg hm9, if_pos rfl]
    simpa [withCount, reportFailedRepro] using
      decodeForward_response p.dashes env dec.reportFailedRepro pl
        .reportFailedRepro
  by_cases hm11 : m = "log_error"
  · subst hm11
    unfold Proxy
    rw [if_neg hm1, if_neg hm2, if_neg hm3, if_neg hm4, if_neg hm5,
      if_neg hm6, if_neg hm7, if_neg hm8, if_neg hm9, if_neg hm10,
      if_pos rfl]
    simpa [withCount] using logError_response p env dec pl
  by_cases hm12 : m = "reporting_poll_bugs"
  · subst hm12
    unfold Proxy
    rw [if_neg hm1, if_neg hm2, if_neg hm3, if_neg hm4, if_neg hm5,
      if_neg hm6, if_neg hm7, if_neg hm8, if_neg hm9, if_neg hm10,
      if_neg hm11, if_pos rfl]
    simpa [withCount, reportingPollBugs] using
      decodeForward_response p.dashes env dec.reportingPollBugs pl
        .reportingPollBugs
  by_cases hm13 : m = "reporting_poll_notifs"
  · subst hm13
    unfold Proxy
    rw [if_neg hm1, if_neg hm2, if_neg hm3, if_neg hm4, if_neg hm5,
      if_neg hm6, if_neg hm7, if_neg hm8, if_neg hm9, if_neg hm10,
      if_neg hm11, if_neg hm12, if_pos rfl]
    simpa [withCount, reportingPollNotifs] using
      decodeForward_response p.dashes env dec.reportingPollNotifs pl
        .reportingPollNotifs
  by_cases hm14 : m = "reporting_poll_closed"
  · subst hm14
    unfold Proxy
    rw [if_neg hm1, if_neg hm2, if_neg hm3, if_neg hm4, if_neg hm5,
      if_neg hm6, if_neg hm7, if_neg hm8, if_neg hm9, if_neg hm10,
      if_neg hm11, if_neg hm12, if_neg hm13, if_pos rfl]
    simpa [withCount, reportingPollClosed] using
      decodeForward_response p.dashes env dec.reportingPollClosed pl
        .reportingPollClosed
  by_cases hm15 : m = "reporting_update"
  · subst hm15
    unfold Proxy
    rw [if_neg hm1, if_neg hm2, if_neg hm3, if_neg hm4, if_neg hm5,
      if_neg hm6, if_neg hm7, if_neg hm8, if_neg hm9, if_neg hm10,
      if_neg hm11, if_neg hm12, if_neg hm13, if_neg hm14, if_pos rfl]
    simpa [withCount, reportingUpdate] using
      decodeForward_response p.dashes env dec.reportingUpdate pl
        .reportingUpdate
  by_cases hm16 : m = "manager_stats"
  · subst hm16
    unfold Proxy
    rw [if_neg hm1, if_neg hm2, if_neg hm3, if_neg hm4, if_neg hm5,
      if_neg hm6, if_neg hm7, if_neg hm8, if_neg hm9, if_neg hm10,
      if_neg hm11, if_neg hm12, if_neg hm13, if_neg hm14, if_neg hm15,
      if_pos rfl]
    simpa [withCount] using managerStats_response p env dec pl
  by_cases hm17 : m = "bug_list"
  · subst hm17
    unfold Proxy
    rw [if_neg hm1, if_neg hm2, if_neg hm3, if_neg hm4, if_neg hm5,
      if_neg hm6, if_neg hm7, if_neg hm8, if_neg hm9, if_neg hm10,
      if_neg hm11, if_neg hm12, if_neg hm13, if_neg hm14, if_neg hm15,
      if_neg hm16, if_pos rfl]
    simpa [withCount, bugList] using fanOut_response env .bugList p.dashes
  by_cases hm18 : m = "load_bug"
  · subst hm18
    unfold Proxy
    rw [if_neg hm1, if_neg hm2, if_neg hm3, if_neg hm4, if_neg hm5,
      if_neg hm6, if_neg hm7, if_neg hm8, if_neg hm9, if_neg hm10,
      if_neg hm11, if_neg hm12, if_neg hm13, if_neg hm14, if_neg hm15,
      if_neg hm16, if_neg hm17, if_pos rfl]
    simpa [withCount, loadBug] using
      decodeForward_response p.dashes env dec.loadBug pl .loadBug
  unfold Proxy
  rw [if_neg hm1, if_neg hm2, if_neg hm3, if_neg hm4, if_neg hm5,
    if_neg hm6, if_neg hm7, if_neg hm8, if_neg hm9, if_neg hm10,
    if_neg hm11, if_neg hm12, if_neg hm13, if_neg hm14, if_neg hm15,
    if_neg hm16, if_neg hm17, if_neg hm18]
  right
  rfl

/-- C7: every failing dispatch, whatever its cause (malformed payload,
unknown method, or downstream adapter failure), carries the same 400
response with the same fixed error string: any error response `Proxy`
writes equals it, so the caller cannot distinguish failure causes. -/
theorem c7_indistinguishable_failures (p : proxy) (env : AdapterEnv)
    (dec : DecodeEnv) (q : CallEnvelope) (e : HttpError)
    (h : (Proxy p env dec q).response = some e) :
    e = ⟨400, "unknown method"⟩ := by
  rcases Proxy_response p env dec q with hr | hr
  · rw [h] at hr
    cases hr
  · rw [h] at hr
    exact Option.some_injective _ hr

theorem c7_witness : badRequest = ⟨400, "unknown method"⟩ :=
  c7_indistinguishable_failures (New ["t1"]) envC1 decAllOk
    ⟨"c", "k", "upload_build", "pl"⟩ badRequest (by decide)

/-- C4: an unrecognized method name performs no adapter call, increments
the (client, "invalid") request counter exactly once, and answers HTTP 400
with body error "unknown method". -/
theorem c4_unknown_method (p : proxy) (env : AdapterEnv) (dec : DecodeEnv)
    (q : CallEnvelope) (h : q.method ∉ knownMethods) :
    Proxy p env dec q =
      ⟨[], [.counterInc "requests_total" [q.client, "invalid"]],
       some ⟨400, "unknown method"⟩⟩ := by
  obtain ⟨cl, k, m, pl⟩ := q
  simp only [knownMethods, methodOps, List.map_cons, List.map_nil,
    List.mem_cons, List.not_mem_nil, or_false] at h
  push_neg at h
  obtain ⟨h1, h2, h3, h4, h5, h6, h7, h8, h9, h10, h11, h12, h13, h14, h15,
    h16, h17, h18⟩ := h
  unfold Proxy
  rw [if_neg h1, if_neg h2, if_neg h3, if_neg h4, if_neg h5, if_neg h6,
    if_neg h7, if_neg h8, if_neg h9, if_neg h10, if_neg h11, if_neg h12,
    if_neg h13, if_neg h14, if_neg h15, if_neg h16, if_neg h17, if_neg h18]
  rfl

theorem c4_witness :
    Proxy (New ["t1"]) envC1 decAllOk ⟨"c", "k", "frobnicate", ""⟩ =
      ⟨[], [.counterInc "requests_total" ["c", "invalid"]],
       some ⟨400, "unknown method"⟩⟩ :=
  c4_unknown_method (New ["t1"]) envC1 decAllOk
    ⟨"c", "k", "frobnicate", ""⟩ (by decide)

/-- Dispatch of a payload-carrying method whose decode pipeline fails:
no adapter call, only the request-counter increment, and the generic
error response. -/
theorem Proxy_decodeFail (p : proxy) (env : AdapterEnv) (dec : DecodeEnv)
    (q : CallEnvelope)
    (hm : q.method ∈ payloadMethods)
    (hd : decodeOk dec q.method q.payload = false) :
    Proxy p env dec q =
      ⟨[], [.counterInc "requests_total" [q.client, q.method]],
       some badRequest⟩ := by
  obtain ⟨cl, k, m, pl⟩ := q
  simp only [payloadMethods, List.mem_cons, List.not_mem_nil, or_false] at hm
  rcases hm with h | h | h | h | h | h | h | h | h | h | h | h | h | h | h | h
  · subst h
    simp [decodeOk] at hd
    simp [Proxy, uploadBuild, decodeForward, hd, withCount]
  · subst h
    simp [decodeOk] at hd
    simp [Proxy, builderPoll, decodeForward, hd, withCount]
  · subst h
    simp [decodeOk] at hd
    simp [Proxy, jobPoll, decodeForward, hd, withCount]
  · subst h
    simp [decodeOk] at hd
    simp [Proxy, jobDone, decodeForward, hd, withCount]
  · subst h
    simp [decodeOk] at hd
    simp [Proxy, reportBuildError, decodeForward, hd, withCount]
  · subst h
    simp [decodeOk] at hd
    simp [Proxy, uploadCommits, decodeForward, hd, withCount]
  · subst h
    simp [decodeOk] at hd
    simp [Proxy, reportCrash, decodeForward, hd, withCount]
  · subst h
    simp [decodeOk] at hd
    simp [Proxy, needRepro, decodeForward, hd, withCount]
  · subst h
    simp [decodeOk] at hd
    simp [Proxy, reportFailedRepro, decodeForward, hd, withCount]
  · subst h
    simp [decodeOk] at hd
    simp [Proxy, logError, hd, withCount]
  · subst h
    simp [decodeOk] at hd
    simp [Proxy, reportingPollBugs, decodeForward, hd, withCount]
  · subst h
    simp [decodeOk] at hd
    simp [Proxy, reportingPollNotifs, decodeForward, hd, withCount]
  · subst h
    simp [decodeOk] at hd
    simp [Proxy, reportingPollClosed, decodeForward, hd, withCount]
  · subst h
    simp [decodeOk] at hd
    simp [Proxy, reportingUpdate, decodeForward, hd, withCount]
  · subst h
    simp [decodeOk] at hd
    simp [Proxy, managerStats, hd, withCount]
  · subst h
    simp [decodeOk] at hd
    simp [Proxy, loadBug, decodeForward, hd, withCount]

/-- C5: for every payload-carrying method, a gzip-decompression or
JSON-parse failure of the payload short-circuits the dispatch: no adapter
is invoked and the response is HTTP 400 with literal message
"unknown method". -/
theorem c5_decode_failure_short_circuits (p : proxy) (env : AdapterEnv)
    (dec : DecodeEnv) (q : CallEnvelope)
    (hm : q.method ∈ payloadMethods)
    (hd : decodeOk dec q.method q.payload = false) :
    (Proxy p env dec q).calls = [] ∧
    (Proxy p env dec q).response = some ⟨400, "unknown method"⟩ := by
  rw [Proxy_decodeFail p env dec q hm hd]
  exact ⟨rfl, rfl⟩

/-- Decode environment whose every pipeline fails. -/
def decAllFail : DecodeEnv :=
  ⟨fun _ => none, fun _ => none, fun _ => none, fun _ => none,
   fun _ => none, fun _ => none, fun _ => none, fun _ => none,
   fun _ => none, fun _ => none, fun _ => none, fun _ => none,
   fun _ => none, fun _ => none, fun _ => none, fun _ => none⟩

theorem c5_witness :
    (Proxy (New ["t1"]) envAllOk decAllFail
        ⟨"c", "k", "report_crash", "garbage"⟩).calls = [] ∧
    (Proxy (New ["t1"]) envAllOk decAllFail
        ⟨"c", "k", "report_crash", "garbage"⟩).response =
      some ⟨400, "unknown method"⟩ :=
  c5_decode_failure_short_circuits (New ["t1"]) envAllOk decAllFail
    ⟨"c", "k", "report_crash", "garbage"⟩ (by decide) (by decide)

/-- C3: a `manager_stats` call whose payload decodes to record `r` updates
exactly the eight per-manager metrics labelled with `r`'s `Name` (the
uptime, corpus, pcs, and coverage gauges set to the payload values and the
crashes, execs, suppressed-crashes, and fuzzing-duration counters
increased by them) before anything else, followed only by the request
counter — independent of the adapter fan-out outcome, since the adapter
environment is arbitrary here — and, when no adapter fails, every
registered adapter receives `UploadManagerStats`. -/
theorem c3_manager_stats_updates (p : proxy) (env : AdapterEnv)
    (dec : DecodeEnv) (q : CallEnvelope) (r : ManagerStatsReq)
    (hm : q.method = "manager_stats")
    (hr : dec.managerStats q.payload = some r) :
    (Proxy p env dec q).metrics =
      managerStatsEvents r ++
        [.counterInc "requests_total" [q.client, "manager_stats"]] ∧
    ((∀ d ∈ p.dashes, callAdapter env d .uploadManagerStats = .ok ()) →
      (Proxy p env dec q).calls =
        p.dashes.map (fun d => (d, .uploadManagerStats))) := by
  obtain ⟨cl, k, m, pl⟩ := q
  subst hm
  constructor
  · simp [Proxy, managerStats, hr, withCount]
  · intro hok
    have hf := fanOut_allOk env .uploadManagerStats p.dashes hok
    simp [Proxy, managerStats, hr, withCount, hf]

theorem c3_witness :
    (Proxy (New ["t1", "t2"]) envAllOk decAllOk
        ⟨"c", "k", "manager_stats", "pl"⟩).metrics =
      [.gaugeSet "manager_uptime_total" ["fuzzer1"] 100,
       .gaugeSet "manager_corpus_total" ["fuzzer1"] 5,
       .gaugeSet "manager_pcs_total" ["fuzzer1"] 0,
       .gaugeSet "manager_coverage_total" ["fuzzer1"] 0,
       .counterAdd "manager_crashes_total" ["fuzzer1"] 2,
       .counterAdd "manager_execs_total" ["fuzzer1"] 0,
       .counterAdd "manager_supp_crashes_total" ["fuzzer1"] 0,
       .counterAdd "manager_fuzzing_dur_total" ["fuzzer1"] 0,
       .counterInc "requests_total" ["c", "manager_stats"]] ∧
    (Proxy (New ["t1", "t2"]) envAllOk decAllOk
        ⟨"c", "k", "manager_stats", "pl"⟩).calls =
      [("t1", DashOp.uploadManagerStats), ("t2", DashOp.uploadManagerStats)] := by
  have h := c3_manager_stats_updates (New ["t1", "t2"]) envAllOk decAllOk
    ⟨"c", "k", "manager_stats", "pl"⟩ ⟨"fuzzer1", 100, 5, 0, 0, 2, 0, 0, 0⟩
    rfl rfl
  exact ⟨h.1, h.2 (fun d _ => rfl)⟩

/-- C8: `commit_poll` and `bug_list` have no decode step: the dispatch
outcome does not depend on the decode environment or on the payload (an
empty payload included), and when no adapter fails the corresponding
operation is invoked on every registered adapter and the call succeeds. -/
theorem c8_payloadless_methods (p : proxy) (env : AdapterEnv)
    (dec : DecodeEnv) (q : CallEnvelope) (op : DashOp)
    (hm : (q.method = "commit_poll" ∧ op = DashOp.commitPoll) ∨
      (q.method = "bug_list" ∧ op = DashOp.bugList))
    (hok : ∀ d ∈ p.dashes, callAdapter env d op = .ok ()) :
    (Proxy p env dec q).calls = p.dashes.map (fun d => (d, op)) ∧
    (Proxy p env dec q).response = none ∧
    ∀ (decB : DecodeEnv) (pl : String),
      Proxy p env decB ⟨q.client, q.key, q.method, pl⟩ =
        Proxy p env dec q := by
  obtain ⟨cl, k, m, pl⟩ := q
  rcases hm with ⟨h1, h2⟩ | ⟨h1, h2⟩
  · subst h1
    subst h2
    have hf := fanOut_allOk env .commitPoll p.dashes hok
    refine ⟨?_, ?_, ?_⟩
    · simp [Proxy, commitPoll, withCount, hf]
    · simp [Proxy, commitPoll, withCount, hf]
    · intro decB pl2
      simp [Proxy, commitPoll, withCount]
  · subst h1
    subst h2
    have hf := fanOut_allOk env .bugList p.dashes hok
    refine ⟨?_, ?_, ?_⟩
    · simp [Proxy, bugList, withCount, hf]
    · simp [Proxy, bugList, withCount, hf]
    · intro decB pl2
      simp [Proxy, bugList, withCount]

theorem c8_witness :
    (Proxy (New ["t1", "t2"]) envAllOk decAllFail
        ⟨"c", "k", "commit_poll", ""⟩).calls =
      [("t1", DashOp.commitPoll), ("t2", DashOp.commitPoll)] ∧
    (Proxy (New ["t1", "t2"]) envAllOk decAllFail
        ⟨"c", "k", "commit_poll", ""⟩).response = none := by
  have h := c8_payloadless_methods (New ["t1", "t2"]) envAllOk decAllFail
    ⟨"c", "k", "commit_poll", ""⟩ .commitPoll (Or.inl ⟨rfl, rfl⟩)
    (fun d _ => rfl)
  exact ⟨h.1, h.2.1⟩

theorem insertTarget_mem (ks : List String) (f x : String) :
    x ∈ insertTarget ks f ↔ x ∈ ks ∨ x = f := by
  unfold insertTarget
  by_cases h : f ∈ ks
  · rw [if_pos h]
    constructor
    · exact Or.inl
    · rintro (hx | rfl)
      · exact hx
      · exact h
  · rw [if_neg h]
    simp

theorem foldl_insertTarget_mem :
    ∀ (fw acc : List String) (x : String),
      x ∈ fw.foldl insertTarget acc ↔ x ∈ acc ∨ x ∈ fw
  | [], acc, x => by simp
  | f :: rest, acc, x => by
    rw [List.foldl_cons, foldl_insertTarget_mem rest (insertTarget acc f) x,
      insertTarget_mem acc f x]
    constructor
    · rintro ((hx | rfl) | hx)
      · exact Or.inl hx
      · exact Or.inr (List.mem_cons_self _ _)
      · exact Or.inr (List.mem_cons_of_mem _ hx)
    · rintro (hx | hx)
      · exact Or.inl (Or.inl hx)
      · rcases List.mem_cons.mp hx with rfl | hx
        · exact Or.inl (Or.inr rfl)
        · exact Or.inr hx

theorem run_preserves (env : AdapterEnv) (dec : DecodeEnv) :
    ∀ (qs : List CallEnvelope) (p : proxy), run p env dec qs = p
  | [], _ => rfl
  | _ :: qs, p => run_preserves env dec qs p

/-- C9: the adapter registry is built once by `New` from the configured
forward-target list and no sequence of dispatched requests ever changes
it; at all times its key set equals the configured forward-target set. -/
theorem c9_registry_immutable (forward : List String) (env : AdapterEnv)
    (dec : DecodeEnv) (qs : List CallEnvelope) :
    run (New forward) env dec qs = New forward ∧
    ∀ f, (f ∈ (run (New forward) env dec qs).dashes ↔ f ∈ forward) := by
  refine ⟨run_preserves env dec qs _, ?_⟩
  intro f
  rw [run_preserves env dec qs _]
  show f ∈ List.foldl insertTarget [] forward ↔ f ∈ forward
  rw [foldl_insertTarget_mem forward [] f]
  simp

theorem decodeForward_metrics (dashes : List String) (env : AdapterEnv)
    (df : String → Option Unit) (pl : String) (op : DashOp) :
    (decodeForward dashes env df pl op).metrics = [] := by
  cases h : df pl <;> simp [decodeForward, h]

theorem logError_metrics (p : proxy) (env : AdapterEnv) (dec : DecodeEnv)
    (pl : String) : (logError p env dec pl).metrics = [] := by
  cases h : dec.logError pl <;> simp [logError, h]

theorem managerStats_noRpc (p : proxy) (env : AdapterEnv) (dec : DecodeEnv)
    (pl : String) : (managerStats p env dec pl).metrics.filter isRpc = [] := by
  cases h : dec.managerStats pl with
  | none => simp [managerStats, h]
  | some r => simp [managerStats, h, managerStatsEvents, isRpc]

/-- The requests-total events of any dispatch: exactly one increment, of
the (client, method) cell for a recognized method and of the
(client, "invalid") cell otherwise. -/
theorem Proxy_rpc_filter (p : proxy) (env : AdapterEnv) (dec : DecodeEnv)
    (q : CallEnvelope) :
    (Proxy p env dec q).metrics.filter isRpc =
      [.counterInc "requests_total"
        [q.client,
         if q.method ∈ knownMethods then q.method else "invalid"]] := by
  obtain ⟨cl, k, m, pl⟩ := q
  by_cases hm1 : m = "upload_build"
  · subst hm1
    unfold Proxy
    rw [if_pos rfl]
    simp [withCount, uploadBuild, decodeForward_metrics, isRpc,
      knownMethods, methodOps]
  by_cases hm2 : m = "builder_poll"
  · subst hm2
    unfold Proxy
    rw [if_neg hm1, if_pos rfl]
    simp [withCount, builderPoll, decodeForward_metrics, isRpc,
      knownMethods, methodOps]
  by_cases hm3 : m = "job_poll"
  · subst hm3
    unfold Proxy
    rw [if_neg hm1, if_neg hm2, if_pos rfl]
    simp [withCount, jobPoll, decodeForward_metrics, isRpc,
      knownMethods, methodOps]
  by_cases hm4 : m = "job_done"
  · subst hm4
    unfold Proxy
    rw [if_neg hm1, if_neg hm2, if_neg hm3, if_pos rfl]
    simp [withCount, jobDone, decodeForward_metrics, isRpc,
      knownMethods, methodOps]
  by_cases hm5 : m = "report_build_error"
  · subst hm5
    unfold Proxy
    rw [if_neg hm1, if_neg hm2, if_neg hm3, if_neg hm4, if_pos rfl]
    simp [withCount, reportBuildError, decodeForward_metrics, isRpc,
      knownMethods, methodOps]
  by_cases hm6 : m = "commit_poll"
  · subst hm6
    unfold Proxy
    rw [if_neg hm1, if_neg hm2, if_neg hm3, if_neg hm4, if_neg hm5,
      if_pos rfl]
    simp [withCount, commitPoll, isRpc, knownMethods, methodOps]
  by_cases hm7 : m = "upload_commits"
  · subst hm7
    unfold Proxy
    rw [if_neg hm1, if_neg hm2, if_neg hm3, if_neg hm4, if_neg hm5,
      if_neg hm6, if_pos rfl]
    simp [withCount, uploadCommits, decodeForward_metrics, isRpc,
      knownMethods, methodOps]
  by_cases hm8 : m = "report_crash"
  · subst hm8
    unfold Proxy
    rw [if_neg hm1, if_neg hm2, if_neg hm3, if_neg hm4, if_neg hm5,
      if_neg hm6, if_neg hm7, if_pos rfl]
    simp [withCount, reportCrash, decodeForward_metrics, isRpc,
      knownMethods, methodOps]
  by_cases hm9 : m = "need_repro"
  · subst hm9
    unfold Proxy
    rw [if_neg hm1, if_neg hm2, if_neg hm3, if_neg hm4, if_neg hm5,
      if_neg hm6, if_neg hm7, if_neg hm8, if_pos rfl]
    simp [withCount, needRepro, decodeForward_metrics, isRpc,
      knownMethods, methodOps]
  by_cases hm10 : m = "report_failed_repro"
  · subst hm10
    unfold Proxy
    rw [if_neg hm1, if_neg hm2, if_neg hm3, if_neg hm4, if_neg hm5,
      if_neg hm6, if_neg hm7, if_neg hm8, if_neg hm9, if_pos rfl]
    simp [withCount, reportFailedRepro, decodeForward_metrics, isRpc,
      knownMethods, methodOps]
  by_cases hm11 : m = "log_error"
  · subst hm11
    unfold Proxy
    rw [if_neg hm1, if_neg hm2, if_neg hm3, if_neg hm4, if_neg hm5,
      if_neg hm6, if_neg hm7, if_neg hm8, if_neg hm9, if_neg hm10,
      if_pos rfl]
    simp [withCount, logError_metrics, isRpc, knownMethods, methodOps]
  by_cases hm12 : m = "reporting_poll_bugs"
  · subst hm12
    unfold Proxy
    rw [if_neg hm1, if_neg hm2, if_neg hm3, if_neg hm4, if_neg hm5,
      if_neg hm6, if_neg hm7, if_neg hm8, if_neg hm9, if_neg hm10,
      if_neg hm11, if_pos rfl]
    simp [withCount, reportingPollBugs, decodeForward_metrics, isRpc,
      knownMethods, methodOps]
  by_cases hm13 : m = "reporting_poll_notifs"
  · subst hm13
    unfold Proxy
    rw [if_neg hm1, if_neg hm2, if_neg hm3, if_neg hm4, if_neg hm5,
      if_neg hm6, if_neg hm7, if_neg hm8, if_neg hm9, if_neg hm10,
      if_neg hm11, if_neg hm12, if_pos rfl]
    simp [withCount, reportingPollNotifs, decodeForward_metrics, isRpc,
      knownMethods, methodOps]
  by_cases hm14 : m = "reporting_poll_closed"
  · subst hm14
    unfold Proxy
    rw [if_neg hm1, if_neg hm2, if_neg hm3, if_neg hm4, if_neg hm5,
      if_neg hm6, if_neg hm7, if_neg hm8, if_neg hm9, if_neg hm10,
      if_neg hm11, if_neg hm12, if_neg hm13, if_pos rfl]
    simp [withCount, reportingPollClosed, decodeForward_metrics, isRpc,
      knownMethods, methodOps]
  by_cases hm15 : m = "reporting_update"
  · subst hm15
    unfold Proxy
    rw [if_neg hm1, if_neg hm2, if_neg hm3, if_neg hm4, if_neg hm5,
      if_neg hm6, if_neg hm7, if_neg hm8, if_neg hm9, if_neg hm10,
      if_neg hm11, if_neg hm12, if_neg hm13, if_neg hm14, if_pos rfl]
    simp [withCount, reportingUpdate, decodeForward_metrics, isRpc,
      knownMethods, methodOps]
  by_cases hm16 : m = "manager_stats"
  · subst hm16
    unfold Proxy
    rw [if_neg hm1, if_neg hm2, if_neg hm3, if_neg hm4, if_neg hm5,
      if_neg hm6, if_neg hm7, if_neg hm8, if_neg hm9, if_neg hm10,
      if_neg hm11, if_neg hm12, if_neg hm13, if_neg hm14, if_neg hm15,
      if_pos rfl]
    simp [withCount, List.filter_append, managerStats_noRpc, isRpc,
      knownMethods, methodOps]
  by_cases hm17 : m = "bug_list"
  · subst hm17
    unfold Proxy
    rw [if_neg hm1, if_neg hm2, if_neg hm3, if_neg hm4, if_neg hm5,
      if_neg hm6, if_neg hm7, if_neg hm8, if_neg hm9, if_neg hm10,
      if_neg hm11, if_neg hm12, if_neg hm13, if_neg hm14, if_neg hm15,
      if_neg hm16, if_pos rfl]
    simp [withCount, bugList, isRpc, knownMethods, methodOps]
  by_cases hm18 : m = "load_bug"
  · subst hm18
    unfold Proxy
    rw [if_neg hm1, if_neg hm2, if_neg hm3, if_neg hm4, if_neg hm5,
      if_neg hm6, if_neg hm7, if_neg hm8, if_neg hm9, if_neg hm10,
      if_neg hm11, if_neg hm12, if_neg hm13, if_neg hm14, if_neg hm15,
      if_neg hm16, if_neg hm17, if_pos rfl]
    simp [withCount, loadBug, decodeForward_metrics, isRpc,
      knownMethods, methodOps]
  have hnk : m ∉ knownMethods := by
    intro hmem
    simp only [knownMethods, methodOps, List.map_cons, List.map_nil,
      List.mem_cons, List.not_mem_nil, or_false] at hmem
    rcases hmem with h | h | h | h | h | h | h | h | h | h | h | h | h | h |
      h | h | h | h
    exacts [hm1 h, hm2 h, hm3 h, hm4 h, hm5 h, hm6 h, hm7 h, hm8 h, hm9 h,
      hm10 h, hm11 h, hm12 h, hm13 h, hm14 h, hm15 h, hm16 h, hm17 h,
      hm18 h]
  unfold Proxy
  rw [if_neg hm1, if_neg hm2, if_neg hm3, if_neg hm4, if_neg hm5,
    if_neg hm6, if_neg hm7, if_neg hm8, if_neg hm9, if_neg hm10,
    if_neg hm11, if_neg hm12, if_neg hm13, if_neg hm14, if_neg hm15,
    if_neg hm16, if_neg hm17, if_neg hm18]
  simp [isRpc, hnk]

/-- C10: every invocation of the dispatch entry point increments exactly
one cell of the `requests_total` counter vector by exactly one, whatever
the outcome: the (client, "invalid") cell for an unrecognized method and
the (client, method) cell for a recognized one. -/
theorem c10_one_requests_total_increment (p : proxy) (env : AdapterEnv)
    (dec : DecodeEnv) (q : CallEnvelope) :
    (Proxy p env dec q).metrics.filter isRpc =
      [.counterInc "requests_total"
        [q.client,
         if q.method ∈ knownMethods then q.method else "invalid"]] :=
  Proxy_rpc_filter p env dec q

theorem countRpc_of_filter (r : DispatchResult) (cl x : String)
    (h : r.metrics.filter isRpc =
      [MetricEvent.counterInc "requests_total" [cl, x]]) :
    countRpc r cl x = 1 := by
  unfold countRpc
  have hpred : (fun a : MetricEvent =>
      decide (a = MetricEvent.counterInc "requests_total" [cl, x]) &&
        isRpc a) =
      (fun a : MetricEvent =>
        decide (a = MetricEvent.counterInc "requests_total" [cl, x])) := by
    funext a
    by_cases ha : a = MetricEvent.counterInc "requests_total" [cl, x]
    · subst ha
      simp [isRpc]
    · simp [ha]
  have h2 : r.metrics.filter
      (fun a => decide (a = MetricEvent.counterInc "requests_total" [cl, x]))
      = (r.metrics.filter isRpc).filter
        (fun a =>
          decide (a = MetricEvent.counterInc "requests_total" [cl, x])) := by
    rw [List.filter_filter, hpred]
  rw [h2, h]
  simp

/-- C2, counterexample to the claim as stated: the claim asserts that on
the error path dispatch returns before incrementing the request counter
for most methods (all but `manager_stats` and the default branch).  For
`upload_build` with a payload that fails to decode — an error path of one
of those "most methods" — the counter cell (client, method) is
nevertheless incremented exactly once: the early `return` statements sit
in the helper `uploadBuild`, not in `Proxy`, so control falls back into
`Proxy` and reaches the increment after the switch. -/
theorem c2_counterexample :
    ¬ ((Proxy (New ["t1"]) envAllOk decAllFail
          ⟨"c", "k", "upload_build", "garbage"⟩).response ≠ none →
        countRpc (Proxy (New ["t1"]) envAllOk decAllFail
          ⟨"c", "k", "upload_build", "garbage"⟩) "c" "upload_build" = 0) := by
  decide

/-- C2 (amended): dispatch increments the per-(client, method) request
counter exactly once on every completed dispatch — error paths included —
for every branch alike; on the default branch the method label is
"invalid".  No branch skips the increment. -/
theorem c2_request_counter_always_once (p : proxy) (env : AdapterEnv)
    (dec : DecodeEnv) (q : CallEnvelope) :
    countRpc (Proxy p env dec q) q.client
      (if q.method ∈ knownMethods then q.method else "invalid") = 1 :=
  countRpc_of_filter _ _ _ (Proxy_rpc_filter p env dec q)
